import Mathlib

/-!
Verification development for the goxkit/metrics repository.

Shallow embedding of:
- the HTTP instrumentation middleware (src/custom/http/http.go),
- the provider selection logic (src/metrics.go, the noop package, src/otlp/otlp.go),
- the runtime gauge collectors (src/custom/system/gouges_mem.go, gouges_sys.go,
  system.go, type.go).
-/

/-- Go conversion `int64(x)` applied to an unsigned 64-bit value: values below
2^63 map to themselves, values at or above wrap to negatives (two complement). -/
def toInt64 (x : Nat) : Int :=
  if x % 2 ^ 64 < 2 ^ 63 then ((x % 2 ^ 64 : Nat) : Int)
  else ((x % 2 ^ 64 : Nat) : Int) - 2 ^ 64

/-- Error taxonomy of the spec (section 7); the Go code propagates plain
`error` values, classified here by origin. -/
inductive MetricsError where
  | connectionError (msg : String)
  | exporterSetupError (msg : String)
  | instrumentCreationError (msg : String)
deriving DecidableEq, Repr

/-- An OpenTelemetry instrument handle as returned by
`meter.Int64ObservableGauge(name, metric.WithDescription(desc))`: identified by
the name and description it was created with. -/
structure Gauge where
  name : String
  description : String
deriving DecidableEq, Repr

/-! ## HTTP instrumentation middleware (src/custom/http/http.go) -/

/-- The parts of `*http.Request` the middleware reads: `r.Method` and
`r.RequestURI` (the raw request URI). -/
structure Request where
  method : String
  requestURI : String
deriving DecidableEq, Repr

/-- Scalar attribute values: `attribute.String` and `attribute.Int`. -/
inductive AttrVal where
  | str (s : String)
  | int (i : Int)
deriving DecidableEq, Repr

/-- One recorded measurement: instrument name, recorded value, and the
attribute set passed via `metric.WithAttributes`. The histogram value
`float64(time.Since(start).Nanoseconds())` is modelled by its integer
nanosecond count. -/
structure Measurement where
  instrumentName : String
  value : Int
  attrs : List (String × AttrVal)
deriving DecidableEq, Repr

/-- Actions an inner handler can perform on the decorated response writer:
`WriteHeader(code)` (intercepted by the decorator) or a body `Write`
(passed through to the embedded writer, not intercepted). -/
inductive WriterAction where
  | writeHeader (code : Int)
  | write
deriving DecidableEq, Repr

/-- Observable behaviour of one inner-handler invocation: the writer actions
it performs, and whether it then panics instead of returning normally
(actions performed before the panic are listed). -/
structure HandlerRun where
  actions : List WriterAction
  panics : Bool
deriving DecidableEq, Repr

/-- The `responseWriter` decorator: wraps the real writer and keeps a
`statusCode` field, initialised to `http.StatusOK` (200) in `Handler`. -/
structure ResponseWriter where
  statusCode : Int
deriving DecidableEq, Repr

/-- `responseWriter.WriteHeader`: stores `code` into the `statusCode` field
(every call overwrites it) and forwards to the wrapped writer. -/
def ResponseWriter.WriteHeader (lrw : ResponseWriter) (code : Int) : ResponseWriter :=
  { lrw with statusCode := code }

/-- Effect of one writer action on the decorator state: `WriteHeader` is
intercepted; `Write` goes to the embedded writer and leaves `statusCode`
untouched. -/
def applyWriterAction (rw : ResponseWriter) : WriterAction → ResponseWriter
  | .writeHeader c => rw.WriteHeader c
  | .write => rw

/-- Decorator state after the inner handler performed its actions. -/
def runHandler (rw : ResponseWriter) (as : List WriterAction) : ResponseWriter :=
  as.foldl applyWriterAction rw

/-- The attribute set built in `Handler` for both instruments:
`attribute.String("method", r.Method)`, `attribute.String("uri", r.RequestURI)`,
`attribute.Int("statusCode", rw.statusCode)`. -/
def httpAttrs (r : Request) (status : Int) : List (String × AttrVal) :=
  [("method", .str r.method), ("uri", .str r.requestURI), ("statusCode", .int status)]

/-- One pass through the middleware closure in `Handler`: wrap the writer with
initial status 200, run the inner handler, then record the duration histogram
observation followed by the counter increment, both with `httpAttrs`.
If the inner handler panics, the panic unwinds past the recording calls
(there is no defer/recover in the source), so nothing is recorded. -/
def handlerServe (run : HandlerRun) (r : Request) (elapsedNs : Int) : List Measurement :=
  let rw := runHandler { statusCode := 200 } run.actions
  if run.panics then []
  else
    [ { instrumentName := "http.request.duration", value := elapsedNs,
        attrs := httpAttrs r rw.statusCode },
      { instrumentName := "http.requests", value := 1,
        attrs := httpAttrs r rw.statusCode } ]

/-- Measurements accumulated over a sequence of served requests. -/
def serveAll (reqs : List (HandlerRun × Request × Int)) : List Measurement :=
  reqs.foldr (fun p acc => handlerServe p.1 p.2.1 p.2.2 ++ acc) []

/-- Total of the request counter: the sum of all `Add` values recorded on the
`http.requests` instrument. -/
def counterTotal : List Measurement → Int
  | [] => 0
  | m :: ms =>
    (if m.instrumentName = "http.requests" then m.value else 0) + counterTotal ms

/-- The argument of the last `WriteHeader` call among the actions, if any. -/
def lastWriteHeader : List WriterAction → Option Int
  | [] => none
  | .writeHeader c :: rest => some ((lastWriteHeader rest).getD c)
  | .write :: rest => lastWriteHeader rest

/-! ## Provider selection (src/metrics.go, noop package, src/otlp/otlp.go) -/

/-- A gRPC transport connection handle (`*grpc.ClientConn`), identified by
creation identity. -/
structure Conn where
  id : Nat
deriving DecidableEq, Repr

/-- The OTLP metric exporter built by `otlpmetricgrpc.New` over a connection. -/
structure Exporter where
  conn : Conn
deriving DecidableEq, Repr

/-- `*sdkmetric.MeterProvider`: `noop.Install` builds one with no reader
(`readerExporter = none`); `otlp.Install` builds one with a periodic reader
over the exporter. -/
structure MeterProvider where
  readerExporter : Option Exporter
deriving DecidableEq, Repr

/-- The fields of `*configs.Configs` this package reads and writes:
`OTLPConfigs.Enabled`, the cached `OTLPExporterConn`, and the
`MetricsProvider` slot the installers write. -/
structure Configs where
  otlpEnabled : Bool
  otlpExporterConn : Option Conn
  metricsProvider : Option MeterProvider
deriving DecidableEq, Repr

/-- Injected collaborators of `otlp.Install`: the connection factory
`otlpgrpc.NewExporterGRPCClient` and the exporter constructor
`otlpmetricgrpc.New`. -/
structure OtlpDeps where
  newExporterGRPCClient : Configs → Except MetricsError Conn
  otlpmetricgrpcNew : Conn → Except MetricsError Exporter

/-- Result of one `Install` call: the returned `(provider, error)` pair, the
configs after the call (a pointer in Go, so its mutations persist), the
process-wide global meter provider after the call (`otel.SetMeterProvider`
target; `none` models the untouched default), and how many times the
connection factory was invoked during the call. -/
structure InstallResult where
  result : Except MetricsError MeterProvider
  cfgs : Configs
  global : Option MeterProvider
  factoryCalls : Nat
deriving Repr

/-- Tail of `otlp.Install` after the connection step: build the exporter
(failure returns the error with configs and global as they stand), then build
the meter provider, store it in `cfgs.MetricsProvider`, publish it via
`otel.SetMeterProvider`, and return it. -/
def otlpSetup (deps : OtlpDeps) (conn : Conn) (cfgs : Configs)
    (g : Option MeterProvider) (fc : Nat) : InstallResult :=
  match deps.otlpmetricgrpcNew conn with
  | .error e => ⟨.error e, cfgs, g, fc⟩
  | .ok exp =>
    let mp : MeterProvider := ⟨some exp⟩
    ⟨.ok mp, { cfgs with metricsProvider := some mp }, some mp, fc⟩

namespace otlp

/-- `otlp.Install`: if `cfgs.OTLPExporterConn` is nil, invoke the connection
factory (on failure, return the error with nothing mutated) and store the new
connection back into the configs; then proceed with exporter and provider
construction. -/
def Install (deps : OtlpDeps) (cfgs : Configs) (g : Option MeterProvider) :
    InstallResult :=
  match cfgs.otlpExporterConn with
  | some conn => otlpSetup deps conn cfgs g 0
  | none =>
    match deps.newExporterGRPCClient cfgs with
    | .error e => ⟨.error e, cfgs, g, 1⟩
    | .ok conn => otlpSetup deps conn { cfgs with otlpExporterConn := some conn } g 1

end otlp

namespace noop

/-- `noop.Install`: build an empty `sdkmetric.NewMeterProvider()`, store it in
`cfgs.MetricsProvider`, and return it with a nil error. It does not call
`otel.SetMeterProvider` and never touches the connection factory. -/
def Install (cfgs : Configs) (g : Option MeterProvider) : InstallResult :=
  let provider : MeterProvider := ⟨none⟩
  ⟨.ok provider, { cfgs with metricsProvider := some provider }, g, 0⟩

end noop

namespace metrics

/-- `metrics.Install` (src/metrics.go): dispatch on `cfgs.OTLPConfigs.Enabled`
between `otlp.Install` and `noop.Install`. -/
def Install (deps : OtlpDeps) (cfgs : Configs) (g : Option MeterProvider) :
    InstallResult :=
  if cfgs.otlpEnabled then otlp.Install deps cfgs g
  else noop.Install cfgs g

end metrics

/-! ## Runtime gauge collectors (src/custom/system) -/

/-- The fields of `runtime.MemStats` relevant here: the 22 fields the Collect
callback reads, plus `StackInuse`, which the runtime also exposes but the
callback does not read. All are unsigned 64-bit counters (NumGC is 32-bit),
modelled as Nat. -/
structure MemStats where
  Sys : Nat
  TotalAlloc : Nat
  HeapAlloc : Nat
  Frees : Nat
  GCSys : Nat
  HeapIdle : Nat
  HeapInuse : Nat
  HeapObjects : Nat
  HeapReleased : Nat
  HeapSys : Nat
  LastGC : Nat
  Lookups : Nat
  Mallocs : Nat
  MCacheInuse : Nat
  MCacheSys : Nat
  MSpanInuse : Nat
  MSpanSys : Nat
  NextGC : Nat
  OtherSys : Nat
  StackInuse : Nat
  StackSys : Nat
  NumGC : Nat
  PauseTotalNs : Nat
deriving DecidableEq, Repr

/-- The `memGauges` struct of src/custom/system/type.go: one observable gauge
handle per tracked memory metric, in declaration order. -/
structure memGauges where
  ggSysBytes : Gauge
  ggAllocBytesTotal : Gauge
  ggHeapAllocBytes : Gauge
  ggFreesTotal : Gauge
  ggGcSysBytes : Gauge
  ggHeapIdleBytes : Gauge
  ggInuseBytes : Gauge
  ggHeapObjects : Gauge
  ggHeapReleasedBytes : Gauge
  ggHeapSysBytes : Gauge
  ggLastGcTimeSeconds : Gauge
  ggLookupsTotal : Gauge
  ggMallocsTotal : Gauge
  ggMCacheInuseBytes : Gauge
  ggMCacheSysBytes : Gauge
  ggMspanInuseBytes : Gauge
  ggMspanSysBytes : Gauge
  ggNextGcBytes : Gauge
  ggOtherSysBytes : Gauge
  ggStackInuseBytes : Gauge
  ggGcCompletedCycle : Gauge
  ggGcPauseTotal : Gauge
deriving DecidableEq, Repr

/-- The `sysGauges` struct of src/custom/system/type.go. -/
structure sysGauges where
  ggThreads : Gauge
  ggCgo : Gauge
  ggGRoutines : Gauge
deriving DecidableEq, Repr

/-- The meter capability used during collector construction:
`meter.Int64ObservableGauge(name, metric.WithDescription(description))`,
which returns an instrument or an error. -/
def GaugeCreate : Type := String → String → Except MetricsError Gauge

/-- `NewMemGauges` (src/custom/system/gouges_mem.go): create the 22 observable
gauges in source order; the first creation failure aborts the whole
construction and is returned (together with a nil collector). -/
def NewMemGauges (create : GaugeCreate) : Except MetricsError memGauges := do
  let ggSysBytes ← create "go_memstats_sys_bytes" "Number of bytes obtained from system."
  let ggAllocBytesTotal ← create "go_memstats_alloc_bytes_total" "Total number of bytes allocated, even if freed."
  let ggHeapAllocBytes ← create "go_memstats_heap_alloc_bytes" "Number of heap bytes allocated and still in use."
  let ggFreesTotal ← create "go_memstats_frees_total" "Total number of frees."
  let ggGcSysBytes ← create "go_memstats_gc_sys_bytes" "Number of bytes used for garbage collection system metadata."
  let ggHeapIdleBytes ← create "go_memstats_heap_idle_bytes" "Number of heap bytes waiting to be used."
  let ggInuseBytes ← create "go_memstats_heap_inuse_bytes" "Number of heap bytes that are in use."
  let ggHeapObjects ← create "go_memstats_heap_objects" "Number of allocated objects."
  let ggHeapReleasedBytes ← create "go_memstats_heap_released_bytes" "Number of heap bytes released to OS."
  let ggHeapSysBytes ← create "go_memstats_heap_sys_bytes" "Number of heap bytes obtained from system."
  let ggLastGcTimeSeconds ← create "go_memstats_last_gc_time_seconds" "Number of seconds since 1970 of last garbage collection."
  let ggLookupsTotal ← create "go_memstats_lookups_total" "Total number of pointer lookups."
  let ggMallocsTotal ← create "go_memstats_mallocs_total" "Total number of mallocs."
  let ggMCacheInuseBytes ← create "go_memstats_mcache_inuse_bytes" "Number of bytes in use by mcache structures."
  let ggMCacheSysBytes ← create "go_memstats_mcache_sys_bytes" "Number of bytes used for mcache structures obtained from system."
  let ggMspanInuseBytes ← create "go_memstats_mspan_inuse_bytes" "Number of bytes in use by mspan structures."
  let ggMspanSysBytes ← create "go_memstats_mspan_sys_bytes" "Number of bytes used for mspan structures obtained from system."
  let ggNextGcBytes ← create "go_memstats_next_gc_bytes" "Number of heap bytes when next garbage collection will take place."
  let ggOtherSysBytes ← create "go_memstats_other_sys_bytes" "Number of bytes used for other system allocations."
  let ggStackInuseBytes ← create "go_memstats_stack_inuse_bytes" "Number of bytes in use by the stack allocator."
  let ggGcCompletedCycle ← create "go_memstats_gc_completed_cycle" "Number of GC cycle completed."
  let ggGcPauseTotal ← create "go_memstats_gc_pause_total" "Number of GC-stop-the-world caused in Nanosecond."
  return { ggSysBytes, ggAllocBytesTotal, ggHeapAllocBytes, ggFreesTotal,
           ggGcSysBytes, ggHeapIdleBytes, ggInuseBytes, ggHeapObjects,
           ggHeapReleasedBytes, ggHeapSysBytes, ggLastGcTimeSeconds,
           ggLookupsTotal, ggMallocsTotal, ggMCacheInuseBytes, ggMCacheSysBytes,
           ggMspanInuseBytes, ggMspanSysBytes, ggNextGcBytes, ggOtherSysBytes,
           ggStackInuseBytes, ggGcCompletedCycle, ggGcPauseTotal }

/-- `NewSysGauge` (src/custom/system/gouges_sys.go). -/
def NewSysGauge (create : GaugeCreate) : Except MetricsError sysGauges := do
  let ggThreads ← create "go_threads" "Number of OS threads created."
  let ggCgo ← create "go_cgo" "Number of CGO calls."
  let ggGRoutines ← create "go_goroutines" "Number of goroutines."
  return { ggThreads, ggCgo, ggGRoutines }

/-- The 22 instrument names of `NewMemGauges`, in creation order. -/
def memGaugeNames : List String :=
  [ "go_memstats_sys_bytes", "go_memstats_alloc_bytes_total",
    "go_memstats_heap_alloc_bytes", "go_memstats_frees_total",
    "go_memstats_gc_sys_bytes", "go_memstats_heap_idle_bytes",
    "go_memstats_heap_inuse_bytes", "go_memstats_heap_objects",
    "go_memstats_heap_released_bytes", "go_memstats_heap_sys_bytes",
    "go_memstats_last_gc_time_seconds", "go_memstats_lookups_total",
    "go_memstats_mallocs_total", "go_memstats_mcache_inuse_bytes",
    "go_memstats_mcache_sys_bytes", "go_memstats_mspan_inuse_bytes",
    "go_memstats_mspan_sys_bytes", "go_memstats_next_gc_bytes",
    "go_memstats_other_sys_bytes", "go_memstats_stack_inuse_bytes",
    "go_memstats_gc_completed_cycle", "go_memstats_gc_pause_total" ]

/-- The 3 instrument names of `NewSysGauge`, in creation order. -/
def sysGaugeNames : List String :=
  ["go_threads", "go_cgo", "go_goroutines"]

/-- First error produced by `create` along a list of names (with the matching
description looked up by the caller being irrelevant to failure order); the
description argument passed here is the empty-string-free pairing used by the
constructors, so this takes name-description pairs. -/
def firstFailure (create : GaugeCreate) : List (String × String) → Option MetricsError
  | [] => none
  | (n, d) :: rest =>
    match create n d with
    | .error e => some e
    | .ok _ => firstFailure create rest

/-- Name-description pairs of `NewMemGauges`, in creation order. -/
def memGaugeSpecs : List (String × String) :=
  [ ("go_memstats_sys_bytes", "Number of bytes obtained from system."),
    ("go_memstats_alloc_bytes_total", "Total number of bytes allocated, even if freed."),
    ("go_memstats_heap_alloc_bytes", "Number of heap bytes allocated and still in use."),
    ("go_memstats_frees_total", "Total number of frees."),
    ("go_memstats_gc_sys_bytes", "Number of bytes used for garbage collection system metadata."),
    ("go_memstats_heap_idle_bytes", "Number of heap bytes waiting to be used."),
    ("go_memstats_heap_inuse_bytes", "Number of heap bytes that are in use."),
    ("go_memstats_heap_objects", "Number of allocated objects."),
    ("go_memstats_heap_released_bytes", "Number of heap bytes released to OS."),
    ("go_memstats_heap_sys_bytes", "Number of heap bytes obtained from system."),
    ("go_memstats_last_gc_time_seconds", "Number of seconds since 1970 of last garbage collection."),
    ("go_memstats_lookups_total", "Total number of pointer lookups."),
    ("go_memstats_mallocs_total", "Total number of mallocs."),
    ("go_memstats_mcache_inuse_bytes", "Number of bytes in use by mcache structures."),
    ("go_memstats_mcache_sys_bytes", "Number of bytes used for mcache structures obtained from system."),
    ("go_memstats_mspan_inuse_bytes", "Number of bytes in use by mspan structures."),
    ("go_memstats_mspan_sys_bytes", "Number of bytes used for mspan structures obtained from system."),
    ("go_memstats_next_gc_bytes", "Number of heap bytes when next garbage collection will take place."),
    ("go_memstats_other_sys_bytes", "Number of bytes used for other system allocations."),
    ("go_memstats_stack_inuse_bytes", "Number of bytes in use by the stack allocator."),
    ("go_memstats_gc_completed_cycle", "Number of GC cycle completed."),
    ("go_memstats_gc_pause_total", "Number of GC-stop-the-world caused in Nanosecond.") ]

/-- Name-description pairs of `NewSysGauge`, in creation order. -/
def sysGaugeSpecs : List (String × String) :=
  [ ("go_threads", "Number of OS threads created."),
    ("go_cgo", "Number of CGO calls."),
    ("go_goroutines", "Number of goroutines.") ]

/-- The meter behaviour when instrument creation always succeeds: creation
returns an instrument bound to the requested name and description. -/
def okCreate : GaugeCreate := fun n d => .ok ⟨n, d⟩

/-- The body of the `memGauges.Collect` callback after the single
`runtime.ReadMemStats(&stats)` call: the 22 `observer.ObserveInt64` calls in
source order, every value taken from the one snapshot `stats`. -/
def memObserve (m : memGauges) (stats : MemStats) : List (Gauge × Int) :=
  [ (m.ggSysBytes, toInt64 stats.Sys),
    (m.ggAllocBytesTotal, toInt64 stats.TotalAlloc),
    (m.ggHeapAllocBytes, toInt64 stats.HeapAlloc),
    (m.ggFreesTotal, toInt64 stats.Frees),
    (m.ggGcSysBytes, toInt64 stats.GCSys),
    (m.ggHeapIdleBytes, toInt64 stats.HeapIdle),
    (m.ggInuseBytes, toInt64 stats.HeapInuse),
    (m.ggHeapObjects, toInt64 stats.HeapObjects),
    (m.ggHeapReleasedBytes, toInt64 stats.HeapReleased),
    (m.ggHeapSysBytes, toInt64 stats.HeapSys),
    (m.ggLastGcTimeSeconds, toInt64 stats.LastGC),
    (m.ggLookupsTotal, toInt64 stats.Lookups),
    (m.ggMallocsTotal, toInt64 stats.Mallocs),
    (m.ggMCacheInuseBytes, toInt64 stats.MCacheInuse),
    (m.ggMCacheSysBytes, toInt64 stats.MCacheSys),
    (m.ggMspanInuseBytes, toInt64 stats.MSpanInuse),
    (m.ggMspanSysBytes, toInt64 stats.MSpanSys),
    (m.ggNextGcBytes, toInt64 stats.NextGC),
    (m.ggOtherSysBytes, toInt64 stats.OtherSys),
    (m.ggStackInuseBytes, toInt64 stats.StackSys),
    (m.ggGcCompletedCycle, toInt64 stats.NumGC),
    (m.ggGcPauseTotal, toInt64 stats.PauseTotalNs) ]

/-- A registered sampling callback, identified by the collector value whose
closure it is (the closure captures exactly the gauge handles of that collector). -/
inductive Callback where
  | memCb (m : memGauges)
  | sysCb (s : sysGauges)
deriving DecidableEq, Repr

/-- The callback-registration state of a meter: the list of callbacks
registered so far, in registration order. -/
structure MeterState where
  callbacks : List Callback
deriving DecidableEq, Repr

/-- `meter.RegisterCallback(cb)`: appends the callback and returns a
registration handle and a nil error (the instruments observed were created by
this same meter, the case in which the SDK registration succeeds). -/
def RegisterCallback (st : MeterState) (cb : Callback) :
    MeterState × Nat × Option MetricsError :=
  ({ callbacks := st.callbacks ++ [cb] }, st.callbacks.length, none)

/-- `memGauges.Collect` (src/custom/system/gouges_mem.go): register the
sampling callback with the meter, discarding both the registration handle and
the error (`_, _ = meter.RegisterCallback(cb)`); the method returns nothing. -/
def memGauges.Collect (m : memGauges) (st : MeterState) : MeterState :=
  (RegisterCallback st (.memCb m)).1

/-- `sysGauges.Collect` (src/custom/system/gouges_sys.go). -/
def sysGauges.Collect (s : sysGauges) (st : MeterState) : MeterState :=
  (RegisterCallback st (.sysCb s)).1

/-- `BasicMetricsCollector` (src/custom/system/system.go): construct the
memory collector, then the system collector (either failure is returned and
aborts), then register both sampling callbacks. -/
def BasicMetricsCollector (create : GaugeCreate) (st : MeterState) :
    Except MetricsError MeterState := do
  let mem ← NewMemGauges create
  let sys ← NewSysGauge create
  return sysGauges.Collect sys (memGauges.Collect mem st)

/-- The memory collector produced when every instrument creation succeeds:
each handle carries the name and description `NewMemGauges` passes for it. -/
def memCanonical : memGauges :=
  { ggSysBytes := ⟨"go_memstats_sys_bytes", "Number of bytes obtained from system."⟩,
    ggAllocBytesTotal := ⟨"go_memstats_alloc_bytes_total", "Total number of bytes allocated, even if freed."⟩,
    ggHeapAllocBytes := ⟨"go_memstats_heap_alloc_bytes", "Number of heap bytes allocated and still in use."⟩,
    ggFreesTotal := ⟨"go_memstats_frees_total", "Total number of frees."⟩,
    ggGcSysBytes := ⟨"go_memstats_gc_sys_bytes", "Number of bytes used for garbage collection system metadata."⟩,
    ggHeapIdleBytes := ⟨"go_memstats_heap_idle_bytes", "Number of heap bytes waiting to be used."⟩,
    ggInuseBytes := ⟨"go_memstats_heap_inuse_bytes", "Number of heap bytes that are in use."⟩,
    ggHeapObjects := ⟨"go_memstats_heap_objects", "Number of allocated objects."⟩,
    ggHeapReleasedBytes := ⟨"go_memstats_heap_released_bytes", "Number of heap bytes released to OS."⟩,
    ggHeapSysBytes := ⟨"go_memstats_heap_sys_bytes", "Number of heap bytes obtained from system."⟩,
    ggLastGcTimeSeconds := ⟨"go_memstats_last_gc_time_seconds", "Number of seconds since 1970 of last garbage collection."⟩,
    ggLookupsTotal := ⟨"go_memstats_lookups_total", "Total number of pointer lookups."⟩,
    ggMallocsTotal := ⟨"go_memstats_mallocs_total", "Total number of mallocs."⟩,
    ggMCacheInuseBytes := ⟨"go_memstats_mcache_inuse_bytes", "Number of bytes in use by mcache structures."⟩,
    ggMCacheSysBytes := ⟨"go_memstats_mcache_sys_bytes", "Number of bytes used for mcache structures obtained from system."⟩,
    ggMspanInuseBytes := ⟨"go_memstats_mspan_inuse_bytes", "Number of bytes in use by mspan structures."⟩,
    ggMspanSysBytes := ⟨"go_memstats_mspan_sys_bytes", "Number of bytes used for mspan structures obtained from system."⟩,
    ggNextGcBytes := ⟨"go_memstats_next_gc_bytes", "Number of heap bytes when next garbage collection will take place."⟩,
    ggOtherSysBytes := ⟨"go_memstats_other_sys_bytes", "Number of bytes used for other system allocations."⟩,
    ggStackInuseBytes := ⟨"go_memstats_stack_inuse_bytes", "Number of bytes in use by the stack allocator."⟩,
    ggGcCompletedCycle := ⟨"go_memstats_gc_completed_cycle", "Number of GC cycle completed."⟩,
    ggGcPauseTotal := ⟨"go_memstats_gc_pause_total", "Number of GC-stop-the-world caused in Nanosecond."⟩ }

/-- A concrete snapshot used to instantiate universally quantified theorems:
Sys = 20, HeapInuse = 10, StackSys = 5, everything else 0. -/
def sampleStats : MemStats :=
  { Sys := 20, TotalAlloc := 0, HeapAlloc := 0, Frees := 0, GCSys := 0,
    HeapIdle := 0, HeapInuse := 10, HeapObjects := 0, HeapReleased := 0,
    HeapSys := 0, LastGC := 0, Lookups := 0, Mallocs := 0, MCacheInuse := 0,
    MCacheSys := 0, MSpanInuse := 0, MSpanSys := 0, NextGC := 0, OtherSys := 0,
    StackInuse := 0, StackSys := 5, NumGC := 0, PauseTotalNs := 0 }

/-- A meter behaviour whose creation of `go_memstats_heap_alloc_bytes` fails
with an instrument-creation error and succeeds on every other name. -/
def failCreate : GaugeCreate := fun n d =>
  if n = "go_memstats_heap_alloc_bytes" then .error (.instrumentCreationError "duplicate instrument")
  else .ok ⟨n, d⟩

/-- Concrete collaborators for instantiating the install theorems: the factory
yields connection 3 and the exporter constructor succeeds. -/
def okDeps : OtlpDeps :=
  { newExporterGRPCClient := fun _ => .ok ⟨3⟩,
    otlpmetricgrpcNew := fun c => .ok ⟨c⟩ }

/-- Concrete collaborators with an unreachable endpoint: the connection
factory always fails. -/
def downDeps : OtlpDeps :=
  { newExporterGRPCClient := fun _ => .error (.connectionError "unreachable endpoint"),
    otlpmetricgrpcNew := fun c => .ok ⟨c⟩ }

/-! ## Helper lemmas -/

lemma runHandler_cons (init : ResponseWriter) (a : WriterAction) (as : List WriterAction) :
    runHandler init (a :: as) = runHandler (applyWriterAction init a) as := rfl

lemma runHandler_statusCode (as : List WriterAction) :
    ∀ init : ResponseWriter,
      (runHandler init as).statusCode = (lastWriteHeader as).getD init.statusCode := by
  induction as with
  | nil => intro init; rfl
  | cons a as ih =>
    intro init
    cases a with
    | writeHeader c =>
      rw [runHandler_cons, ih]
      simp [applyWriterAction, ResponseWriter.WriteHeader, lastWriteHeader]
    | write =>
      rw [runHandler_cons, ih]
      simp [applyWriterAction, lastWriteHeader]

lemma counterTotal_append (xs ys : List Measurement) :
    counterTotal (xs ++ ys) = counterTotal xs + counterTotal ys := by
  induction xs with
  | nil => simp [counterTotal]
  | cons m xs ih => simp [counterTotal, ih, add_assoc]

lemma counterTotal_handlerServe (run : HandlerRun) (r : Request) (t : Int)
    (h : run.panics = false) : counterTotal (handlerServe run r t) = 1 := by
  simp [handlerServe, h, counterTotal]

lemma serveAll_cons (p : HandlerRun × Request × Int)
    (ps : List (HandlerRun × Request × Int)) :
    serveAll (p :: ps) = handlerServe p.1 p.2.1 p.2.2 ++ serveAll ps := rfl

lemma counterTotal_serveAll (reqs : List (HandlerRun × Request × Int))
    (hall : ∀ p ∈ reqs, p.1.panics = false) :
    counterTotal (serveAll reqs) = reqs.length := by
  induction reqs with
  | nil => rfl
  | cons p ps ih =>
    have hp : p.1.panics = false := hall p (List.mem_cons_self p ps)
    have hrec := ih fun q hq => hall q (List.mem_cons_of_mem p hq)
    rw [serveAll_cons, counterTotal_append, counterTotal_handlerServe p.1 p.2.1 p.2.2 hp,
      hrec]
    simp [List.length_cons]
    ring

/-! ## Claim theorems -/

/-- C1 counterexample: at a concrete request the two recorded measurements
carry the attribute keys method, uri, statusCode, and the claimed key
status_code is not among them. -/
theorem c1_attr_key_counterexample :
    ((handlerServe ⟨[], false⟩ ⟨"GET", "/x"⟩ 5).map fun m => m.attrs.map Prod.fst) =
      [["method", "uri", "statusCode"], ["method", "uri", "statusCode"]] ∧
    ¬ ("status_code" ∈ (["method", "uri", "statusCode"] : List String)) :=
  ⟨rfl, by decide⟩

/-- C1 (amended: the third attribute key is statusCode, not status_code): every
request whose handler returns normally yields exactly one duration observation
followed by exactly one unit counter increment, both with the identical
attribute set over keys method, uri, statusCode, and after N such served
requests the counter total is N. -/
theorem c1_exactly_one_counter_and_duration (run : HandlerRun) (r : Request)
    (t : Int) (reqs : List (HandlerRun × Request × Int))
    (h : run.panics = false) (hall : ∀ p ∈ reqs, p.1.panics = false) :
    handlerServe run r t =
      [ { instrumentName := "http.request.duration", value := t,
          attrs := httpAttrs r (runHandler ⟨200⟩ run.actions).statusCode },
        { instrumentName := "http.requests", value := 1,
          attrs := httpAttrs r (runHandler ⟨200⟩ run.actions).statusCode } ] ∧
    (∀ m ∈ handlerServe run r t, m.attrs.map Prod.fst = ["method", "uri", "statusCode"]) ∧
    counterTotal (serveAll reqs) = reqs.length := by
  refine ⟨by simp [handlerServe, h], ?_, counterTotal_serveAll reqs hall⟩
  intro m hm
  simp [handlerServe, h] at hm
  rcases hm with h1 | h1 <;> subst h1 <;> simp [httpAttrs]

/-- C1 witness: one concrete normally-returning request. -/
theorem c1_witness :
    handlerServe ⟨[], false⟩ ⟨"POST", "/p"⟩ 9 =
      [ { instrumentName := "http.request.duration", value := 9,
          attrs := httpAttrs ⟨"POST", "/p"⟩ (runHandler ⟨200⟩ []).statusCode },
        { instrumentName := "http.requests", value := 1,
          attrs := httpAttrs ⟨"POST", "/p"⟩ (runHandler ⟨200⟩ []).statusCode } ] ∧
    (∀ m ∈ handlerServe ⟨[], false⟩ ⟨"POST", "/p"⟩ 9,
      m.attrs.map Prod.fst = ["method", "uri", "statusCode"]) ∧
    counterTotal (serveAll [(⟨[], false⟩, ⟨"POST", "/p"⟩, 9)]) =
      ([(((⟨[], false⟩ : HandlerRun), (⟨"POST", "/p"⟩ : Request), (9 : Int)))] :
        List (HandlerRun × Request × Int)).length :=
  c1_exactly_one_counter_and_duration ⟨[], false⟩ ⟨"POST", "/p"⟩ 9
    [(⟨[], false⟩, ⟨"POST", "/p"⟩, 9)] rfl (by simp)

/-- C2 counterexample: after WriteHeader(404) then WriteHeader(500) the
captured status used in the recorded attributes is 500, not the first
argument 404. -/
theorem c2_counterexample :
    (runHandler ⟨200⟩ [.writeHeader 404, .writeHeader 500]).statusCode = 500 ∧
    ((handlerServe ⟨[.writeHeader 404, .writeHeader 500], false⟩ ⟨"GET", "/a"⟩ 10).map
      fun m => m.attrs) =
      [httpAttrs ⟨"GET", "/a"⟩ 500, httpAttrs ⟨"GET", "/a"⟩ 500] ∧
    (500 : Int) ≠ 404 :=
  ⟨rfl, rfl, by decide⟩

/-- C2 (amended: last write wins): the captured status equals the argument of
the last WriteHeader call the handler makes, 200 if it makes none, and that
status is the one used in both recorded attribute sets. -/
theorem c2_last_write_wins (run : HandlerRun) (r : Request) (t : Int)
    (h : run.panics = false) :
    (runHandler ⟨200⟩ run.actions).statusCode = (lastWriteHeader run.actions).getD 200 ∧
    ∀ m ∈ handlerServe run r t,
      m.attrs = httpAttrs r ((lastWriteHeader run.actions).getD 200) := by
  have hs := runHandler_statusCode run.actions ⟨200⟩
  refine ⟨hs, ?_⟩
  intro m hm
  simp [handlerServe, h] at hm
  rcases hm with h1 | h1 <;> subst h1 <;> simp [hs]

/-- C2 witness: a handler calling WriteHeader(404) and then writing a body. -/
theorem c2_witness :
    (runHandler ⟨200⟩ [.writeHeader 404, .write]).statusCode =
      (lastWriteHeader [.writeHeader 404, .write]).getD 200 ∧
    ∀ m ∈ handlerServe ⟨[.writeHeader 404, .write], false⟩ ⟨"GET", "/w"⟩ 7,
      m.attrs = httpAttrs ⟨"GET", "/w"⟩ ((lastWriteHeader [.writeHeader 404, .write]).getD 200) :=
  c2_last_write_wins ⟨[.writeHeader 404, .write], false⟩ ⟨"GET", "/w"⟩ 7 rfl

/-- C7: a handler that panics yields no recorded measurements at all — the
recording calls sit after the inner handler invocation with no defer or
recover, so the claimed guaranteed recording does not happen. -/
theorem c7_panicking_handler_not_recorded :
    handlerServe ⟨[], true⟩ ⟨"GET", "/boom"⟩ 100 = [] ∧
    counterTotal (handlerServe ⟨[], true⟩ ⟨"GET", "/boom"⟩ 100) = 0 :=
  ⟨rfl, rfl⟩


lemma otlp_install_some (deps : OtlpDeps) (cfgs : Configs) (g : Option MeterProvider)
    (conn : Conn) (h : cfgs.otlpExporterConn = some conn) :
    otlp.Install deps cfgs g = otlpSetup deps conn cfgs g 0 := by
  unfold otlp.Install
  rw [h]

lemma otlp_install_none_err (deps : OtlpDeps) (cfgs : Configs) (g : Option MeterProvider)
    (e : MetricsError) (h1 : cfgs.otlpExporterConn = none)
    (h2 : deps.newExporterGRPCClient cfgs = .error e) :
    otlp.Install deps cfgs g = ⟨.error e, cfgs, g, 1⟩ := by
  unfold otlp.Install
  rw [h1, h2]

lemma otlp_install_none_ok (deps : OtlpDeps) (cfgs : Configs) (g : Option MeterProvider)
    (conn : Conn) (h1 : cfgs.otlpExporterConn = none)
    (h2 : deps.newExporterGRPCClient cfgs = .ok conn) :
    otlp.Install deps cfgs g =
      otlpSetup deps conn { cfgs with otlpExporterConn := some conn } g 1 := by
  unfold otlp.Install
  rw [h1, h2]

lemma otlpSetup_err (deps : OtlpDeps) (conn : Conn) (cfgs : Configs)
    (g : Option MeterProvider) (fc : Nat) (e : MetricsError)
    (h : deps.otlpmetricgrpcNew conn = .error e) :
    otlpSetup deps conn cfgs g fc = ⟨.error e, cfgs, g, fc⟩ := by
  unfold otlpSetup
  rw [h]

lemma otlpSetup_ok (deps : OtlpDeps) (conn : Conn) (cfgs : Configs)
    (g : Option MeterProvider) (fc : Nat) (exp : Exporter)
    (h : deps.otlpmetricgrpcNew conn = .ok exp) :
    otlpSetup deps conn cfgs g fc =
      ⟨.ok ⟨some exp⟩, { cfgs with metricsProvider := some ⟨some exp⟩ },
        some ⟨some exp⟩, fc⟩ := by
  unfold otlpSetup
  rw [h]

lemma otlp_install_ok_global (deps : OtlpDeps) (cfgs : Configs)
    (g : Option MeterProvider) (mp : MeterProvider)
    (h : (otlp.Install deps cfgs g).result = .ok mp) :
    (otlp.Install deps cfgs g).global = some mp := by
  cases hconn : cfgs.otlpExporterConn with
  | some conn =>
    rw [otlp_install_some deps cfgs g conn hconn] at h ⊢
    cases hexp : deps.otlpmetricgrpcNew conn with
    | error e2 =>
      rw [otlpSetup_err deps conn cfgs g 0 e2 hexp] at h
      exact absurd h (by simp)
    | ok exp =>
      rw [otlpSetup_ok deps conn cfgs g 0 exp hexp] at h ⊢
      simp_all
  | none =>
    cases hfac : deps.newExporterGRPCClient cfgs with
    | error e2 =>
      rw [otlp_install_none_err deps cfgs g e2 hconn hfac] at h
      exact absurd h (by simp)
    | ok conn =>
      rw [otlp_install_none_ok deps cfgs g conn hconn hfac] at h ⊢
      cases hexp : deps.otlpmetricgrpcNew conn with
      | error e2 =>
        rw [otlpSetup_err deps conn _ g 1 e2 hexp] at h
        exact absurd h (by simp)
      | ok exp =>
        rw [otlpSetup_ok deps conn _ g 1 exp hexp] at h ⊢
        simp_all

lemma otlp_install_error_global (deps : OtlpDeps) (cfgs : Configs)
    (g : Option MeterProvider) (e : MetricsError)
    (h : (otlp.Install deps cfgs g).result = .error e) :
    (otlp.Install deps cfgs g).global = g := by
  cases hconn : cfgs.otlpExporterConn with
  | some conn =>
    rw [otlp_install_some deps cfgs g conn hconn] at h ⊢
    cases hexp : deps.otlpmetricgrpcNew conn with
    | error e2 => rw [otlpSetup_err deps conn cfgs g 0 e2 hexp]
    | ok exp =>
      rw [otlpSetup_ok deps conn cfgs g 0 exp hexp] at h
      exact absurd h (by simp)
  | none =>
    cases hfac : deps.newExporterGRPCClient cfgs with
    | error e2 => rw [otlp_install_none_err deps cfgs g e2 hconn hfac]
    | ok conn =>
      rw [otlp_install_none_ok deps cfgs g conn hconn hfac] at h ⊢
      cases hexp : deps.otlpmetricgrpcNew conn with
      | error e2 => rw [otlpSetup_err deps conn _ g 1 e2 hexp]
      | ok exp =>
        rw [otlpSetup_ok deps conn _ g 1 exp hexp] at h
        exact absurd h (by simp)

lemma otlp_install_cached (deps : OtlpDeps) (cfgs : Configs)
    (g : Option MeterProvider) (conn : Conn)
    (h : cfgs.otlpExporterConn = some conn) :
    (otlp.Install deps cfgs g).factoryCalls = 0 ∧
    (otlp.Install deps cfgs g).cfgs.otlpExporterConn = some conn := by
  rw [otlp_install_some deps cfgs g conn h]
  cases hexp : deps.otlpmetricgrpcNew conn with
  | error e => rw [otlpSetup_err deps conn cfgs g 0 e hexp]; exact ⟨rfl, h⟩
  | ok exp => rw [otlpSetup_ok deps conn cfgs g 0 exp hexp]; exact ⟨rfl, h⟩

lemma otlp_install_uncached (deps : OtlpDeps) (cfgs : Configs)
    (g : Option MeterProvider) (h : cfgs.otlpExporterConn = none) :
    (otlp.Install deps cfgs g).factoryCalls = 1 ∧
    ∀ conn, deps.newExporterGRPCClient cfgs = .ok conn →
      (otlp.Install deps cfgs g).cfgs.otlpExporterConn = some conn := by
  cases hfac : deps.newExporterGRPCClient cfgs with
  | error e =>
    rw [otlp_install_none_err deps cfgs g e h hfac]
    refine ⟨rfl, ?_⟩
    intro conn hc
    exact absurd hc (by simp)
  | ok conn =>
    rw [otlp_install_none_ok deps cfgs g conn h hfac]
    cases hexp : deps.otlpmetricgrpcNew conn with
    | error e2 =>
      rw [otlpSetup_err deps conn _ g 1 e2 hexp]
      refine ⟨rfl, ?_⟩
      intro conn2 hc2
      injection hc2 with hc2
      subst hc2
      rfl
    | ok exp =>
      rw [otlpSetup_ok deps conn _ g 1 exp hexp]
      refine ⟨rfl, ?_⟩
      intro conn2 hc2
      injection hc2 with hc2
      subst hc2
      rfl

/-- C3 counterexample: with the exporter disabled, Install succeeds and
returns the no-op provider but leaves the process-wide global meter provider
at its prior value, which differs from the returned provider. -/
theorem c3_counterexample :
    (metrics.Install okDeps ⟨false, none, none⟩ (some ⟨some ⟨⟨7⟩⟩⟩)).result =
      .ok ⟨none⟩ ∧
    (metrics.Install okDeps ⟨false, none, none⟩ (some ⟨some ⟨⟨7⟩⟩⟩)).global =
      some ⟨some ⟨⟨7⟩⟩⟩ ∧
    (some (⟨some ⟨⟨7⟩⟩⟩ : MeterProvider) ≠ some (⟨none⟩ : MeterProvider)) :=
  ⟨rfl, rfl, by decide⟩

/-- C3 (amended: only the enabled branch publishes): when Install succeeds
with enabled=true the global meter provider equals the returned provider;
with enabled=false the global is left unchanged (the provider is stored only
in the configs); and when Install returns an error the global keeps its prior
value. -/
theorem c3_global_publication (deps : OtlpDeps) (cfgs : Configs)
    (g : Option MeterProvider) :
    (∀ mp, cfgs.otlpEnabled = true → (metrics.Install deps cfgs g).result = .ok mp →
      (metrics.Install deps cfgs g).global = some mp) ∧
    (cfgs.otlpEnabled = false → (metrics.Install deps cfgs g).global = g) ∧
    (∀ e, (metrics.Install deps cfgs g).result = .error e →
      (metrics.Install deps cfgs g).global = g) := by
  refine ⟨?_, ?_, ?_⟩
  · intro mp hEn h
    simp only [metrics.Install, hEn, if_true] at h ⊢
    exact otlp_install_ok_global deps cfgs g mp h
  · intro hEn
    simp [metrics.Install, hEn, noop.Install]
  · intro e h
    cases hEn : cfgs.otlpEnabled with
    | false => simp [metrics.Install, hEn, noop.Install] at h
    | true =>
      simp only [metrics.Install, hEn, if_true] at h ⊢
      exact otlp_install_error_global deps cfgs g e h

/-- C3 witness: a successful enabled install with a cached connection. -/
theorem c3_witness :
    (metrics.Install okDeps ⟨true, some ⟨5⟩, none⟩ none).global =
      some ⟨some ⟨⟨5⟩⟩⟩ :=
  (c3_global_publication okDeps ⟨true, some ⟨5⟩, none⟩ none).1 ⟨some ⟨⟨5⟩⟩⟩ rfl rfl

/-- C4: Install dispatches purely on the enabled flag — enabled=false yields
the no-op provider with a nil error, enabled=true delegates wholesale to the
OTLP install, whose error, if any, is the one the caller sees. -/
theorem c4_dispatch (deps : OtlpDeps) (cfgs : Configs) (g : Option MeterProvider) :
    (cfgs.otlpEnabled = false →
      metrics.Install deps cfgs g = noop.Install cfgs g ∧
      (noop.Install cfgs g).result = .ok ⟨none⟩ ∧
      (metrics.Install deps cfgs g).result = .ok ⟨none⟩) ∧
    (cfgs.otlpEnabled = true →
      metrics.Install deps cfgs g = otlp.Install deps cfgs g) := by
  constructor
  · intro hEn
    exact ⟨by simp [metrics.Install, hEn], rfl,
      by simp [metrics.Install, hEn, noop.Install]⟩
  · intro hEn
    simp [metrics.Install, hEn]

/-- C4 witness: one disabled and one enabled configuration. -/
theorem c4_witness :
    (metrics.Install okDeps ⟨false, none, none⟩ none).result = .ok ⟨none⟩ ∧
    metrics.Install okDeps ⟨true, some ⟨1⟩, none⟩ none =
      otlp.Install okDeps ⟨true, some ⟨1⟩, none⟩ none :=
  ⟨((c4_dispatch okDeps ⟨false, none, none⟩ none).1 rfl).2.2,
   (c4_dispatch okDeps ⟨true, some ⟨1⟩, none⟩ none).2 rfl⟩

/-- C5: the connection factory runs only when no cached connection exists, a
created connection is stored back into the configs so a later Install reuses
it with zero factory calls, and the disabled branch never invokes the
factory. -/
theorem c5_lazy_connection (deps : OtlpDeps) (cfgs : Configs)
    (g g2 : Option MeterProvider) :
    (∀ conn, cfgs.otlpExporterConn = some conn →
      (otlp.Install deps cfgs g).factoryCalls = 0 ∧
      (otlp.Install deps cfgs g).cfgs.otlpExporterConn = some conn) ∧
    (cfgs.otlpExporterConn = none →
      (otlp.Install deps cfgs g).factoryCalls = 1 ∧
      ∀ conn, deps.newExporterGRPCClient cfgs = .ok conn →
        (otlp.Install deps cfgs g).cfgs.otlpExporterConn = some conn ∧
        (otlp.Install deps ((otlp.Install deps cfgs g).cfgs) g2).factoryCalls = 0) ∧
    (cfgs.otlpEnabled = false → (metrics.Install deps cfgs g).factoryCalls = 0) := by
  refine ⟨?_, ?_, ?_⟩
  · intro conn hconn
    exact otlp_install_cached deps cfgs g conn hconn
  · intro hcn
    have hu := otlp_install_uncached deps cfgs g hcn
    refine ⟨hu.1, ?_⟩
    intro conn hfac
    have hstored := hu.2 conn hfac
    exact ⟨hstored,
      (otlp_install_cached deps ((otlp.Install deps cfgs g).cfgs) g2 conn hstored).1⟩
  · intro hEn
    simp [metrics.Install, hEn, noop.Install]

/-- C5 witness: a first install that creates connection 3, a second install
that reuses it, and a disabled install with zero factory calls. -/
theorem c5_witness :
    ((otlp.Install okDeps ⟨true, none, none⟩ none).factoryCalls = 1 ∧
     (otlp.Install okDeps ⟨true, none, none⟩ none).cfgs.otlpExporterConn = some ⟨3⟩ ∧
     (otlp.Install okDeps ((otlp.Install okDeps ⟨true, none, none⟩ none).cfgs)
        none).factoryCalls = 0) ∧
    (metrics.Install okDeps ⟨false, none, none⟩ none).factoryCalls = 0 := by
  have h := c5_lazy_connection okDeps ⟨true, none, none⟩ none none
  have h2 := (h.2.1 rfl).2 ⟨3⟩ rfl
  exact ⟨⟨(h.2.1 rfl).1, h2.1, h2.2⟩,
    (c5_lazy_connection okDeps ⟨false, none, none⟩ none none).2.2 rfl⟩

lemma newMemGauges_error_of_firstFailure (create : GaugeCreate) (e : MetricsError)
    (h : firstFailure create memGaugeSpecs = some e) :
    NewMemGauges create = .error e := by
  simp only [memGaugeSpecs, firstFailure] at h
  cases h1 : create "go_memstats_sys_bytes" "Number of bytes obtained from system." with
  | error err =>
    simp only [h1] at h
    injection h with h
    subst h
    simp only [NewMemGauges]
    rw [h1]
    rfl
  | ok g1 =>
    simp only [h1] at h
    cases h2 : create "go_memstats_alloc_bytes_total" "Total number of bytes allocated, even if freed." with
    | error err =>
      simp only [h2] at h
      injection h with h
      subst h
      simp only [NewMemGauges]
      rw [h1, h2]
      rfl
    | ok g2 =>
      simp only [h2] at h
      cases h3 : create "go_memstats_heap_alloc_bytes" "Number of heap bytes allocated and still in use." with
      | error err =>
        simp only [h3] at h
        injection h with h
        subst h
        simp only [NewMemGauges]
        rw [h1, h2, h3]
        rfl
      | ok g3 =>
        simp only [h3] at h
        cases h4 : create "go_memstats_frees_total" "Total number of frees." with
        | error err =>
          simp only [h4] at h
          injection h with h
          subst h
          simp only [NewMemGauges]
          rw [h1, h2, h3, h4]
          rfl
        | ok g4 =>
          simp only [h4] at h
          cases h5 : create "go_memstats_gc_sys_bytes" "Number of bytes used for garbage collection system metadata." with
          | error err =>
            simp only [h5] at h
            injection h with h
            subst h
            simp only [NewMemGauges]
            rw [h1, h2, h3, h4, h5]
            rfl
          | ok g5 =>
            simp only [h5] at h
            cases h6 : create "go_memstats_heap_idle_bytes" "Number of heap bytes waiting to be used." with
            | error err =>
              simp only [h6] at h
              injection h with h
              subst h
              simp only [NewMemGauges]
              rw [h1, h2, h3, h4, h5, h6]
              rfl
            | ok g6 =>
              simp only [h6] at h
              cases h7 : create "go_memstats_heap_inuse_bytes" "Number of heap bytes that are in use." with
              | error err =>
                simp only [h7] at h
                injection h with h
                subst h
                simp only [NewMemGauges]
                rw [h1, h2, h3, h4, h5, h6, h7]
                rfl
              | ok g7 =>
                simp only [h7] at h
                cases h8 : create "go_memstats_heap_objects" "Number of allocated objects." with
                | error err =>
                  simp only [h8] at h
                  injection h with h
                  subst h
                  simp only [NewMemGauges]
                  rw [h1, h2, h3, h4, h5, h6, h7, h8]
                  rfl
                | ok g8 =>
                  simp only [h8] at h
                  cases h9 : create "go_memstats_heap_released_bytes" "Number of heap bytes released to OS." with
                  | error err =>
                    simp only [h9] at h
                    injection h with h
                    subst h
                    simp only [NewMemGauges]
                    rw [h1, h2, h3, h4, h5, h6, h7, h8, h9]
                    rfl
                  | ok g9 =>
                    simp only [h9] at h
                    cases h10 : create "go_memstats_heap_sys_bytes" "Number of heap bytes obtained from system." with
                    | error err =>
                      simp only [h10] at h
                      injection h with h
                      subst h
                      simp only [NewMemGauges]
                      rw [h1, h2, h3, h4, h5, h6, h7, h8, h9, h10]
                      rfl
                    | ok g10 =>
                      simp only [h10] at h
                      cases h11 : create "go_memstats_last_gc_time_seconds" "Number of seconds since 1970 of last garbage collection." with
                      | error err =>
                        simp only [h11] at h
                        injection h with h
                        subst h
                        simp only [NewMemGauges]
                        rw [h1, h2, h3, h4, h5, h6, h7, h8, h9, h10, h11]
                        rfl
                      | ok g11 =>
                        simp only [h11] at h
                        cases h12 : create "go_memstats_lookups_total" "Total number of pointer lookups." with
                        | error err =>
                          simp only [h12] at h
                          injection h with h
                          subst h
                          simp only [NewMemGauges]
                          rw [h1, h2, h3, h4, h5, h6, h7, h8, h9, h10, h11, h12]
                          rfl
                        | ok g12 =>
                          simp only [h12] at h
                          cases h13 : create "go_memstats_mallocs_total" "Total number of mallocs." with
                          | error err =>
                            simp only [h13] at h
                            injection h with h
                            subst h
                            simp only [NewMemGauges]
                            rw [h1, h2, h3, h4, h5, h6, h7, h8, h9, h10, h11, h12, h13]
                            rfl
                          | ok g13 =>
                            simp only [h13] at h
                            cases h14 : create "go_memstats_mcache_inuse_bytes" "Number of bytes in use by mcache structures." with
                            | error err =>
                              simp only [h14] at h
                              injection h with h
                              subst h
                              simp only [NewMemGauges]
                              rw [h1, h2, h3, h4, h5, h6, h7, h8, h9, h10, h11, h12, h13, h14]
                              rfl
                            | ok g14 =>
                              simp only [h14] at h
                              cases h15 : create "go_memstats_mcache_sys_bytes" "Number of bytes used for mcache structures obtained from system." with
                              | error err =>
                                simp only [h15] at h
                                injection h with h
                                subst h
                                simp only [NewMemGauges]
                                rw [h1, h2, h3, h4, h5, h6, h7, h8, h9, h10, h11, h12, h13, h14, h15]
                                rfl
                              | ok g15 =>
                                simp only [h15] at h
                                cases h16 : create "go_memstats_mspan_inuse_bytes" "Number of bytes in use by mspan structures." with
                                | error err =>
                                  simp only [h16] at h
                                  injection h with h
                                  subst h
                                  simp only [NewMemGauges]
                                  rw [h1, h2, h3, h4, h5, h6, h7, h8, h9, h10, h11, h12, h13, h14, h15, h16]
                                  rfl
                                | ok g16 =>
                                  simp only [h16] at h
                                  cases h17 : create "go_memstats_mspan_sys_bytes" "Number of bytes used for mspan structures obtained from system." with
                                  | error err =>
                                    simp only [h17] at h
                                    injection h with h
                                    subst h
                                    simp only [NewMemGauges]
                                    rw [h1, h2, h3, h4, h5, h6, h7, h8, h9, h10, h11, h12, h13, h14, h15, h16, h17]
                                    rfl
                                  | ok g17 =>
                                    simp only [h17] at h
                                    cases h18 : create "go_memstats_next_gc_bytes" "Number of heap bytes when next garbage collection will take place." with
                                    | error err =>
                                      simp only [h18] at h
                                      injection h with h
                                      subst h
                                      simp only [NewMemGauges]
                                      rw [h1, h2, h3, h4, h5, h6, h7, h8, h9, h10, h11, h12, h13, h14, h15, h16, h17, h18]
                                      rfl
                                    | ok g18 =>
                                      simp only [h18] at h
                                      cases h19 : create "go_memstats_other_sys_bytes" "Number of bytes used for other system allocations." with
                                      | error err =>
                                        simp only [h19] at h
                                        injection h with h
                                        subst h
                                        simp only [NewMemGauges]
                                        rw [h1, h2, h3, h4, h5, h6, h7, h8, h9, h10, h11, h12, h13, h14, h15, h16, h17, h18, h19]
                                        rfl
                                      | ok g19 =>
                                        simp only [h19] at h
                                        cases h20 : create "go_memstats_stack_inuse_bytes" "Number of bytes in use by the stack allocator." with
                                        | error err =>
                                          simp only [h20] at h
                                          injection h with h
                                          subst h
                                          simp only [NewMemGauges]
                                          rw [h1, h2, h3, h4, h5, h6, h7, h8, h9, h10, h11, h12, h13, h14, h15, h16, h17, h18, h19, h20]
                                          rfl
                                        | ok g20 =>
                                          simp only [h20] at h
                                          cases h21 : create "go_memstats_gc_completed_cycle" "Number of GC cycle completed." with
                                          | error err =>
                                            simp only [h21] at h
                                            injection h with h
                                            subst h
                                            simp only [NewMemGauges]
                                            rw [h1, h2, h3, h4, h5, h6, h7, h8, h9, h10, h11, h12, h13, h14, h15, h16, h17, h18, h19, h20, h21]
                                            rfl
                                          | ok g21 =>
                                            simp only [h21] at h
                                            cases h22 : create "go_memstats_gc_pause_total" "Number of GC-stop-the-world caused in Nanosecond." with
                                            | error err =>
                                              simp only [h22] at h
                                              injection h with h
                                              subst h
                                              simp only [NewMemGauges]
                                              rw [h1, h2, h3, h4, h5, h6, h7, h8, h9, h10, h11, h12, h13, h14, h15, h16, h17, h18, h19, h20, h21, h22]
                                              rfl
                                            | ok g22 =>
                                              simp only [h22] at h
                                              exact Option.noConfusion h

lemma newMemGauges_ok_of_noFailure (create : GaugeCreate)
    (h : firstFailure create memGaugeSpecs = none) :
    ∃ m, NewMemGauges create = .ok m := by
  simp only [memGaugeSpecs, firstFailure] at h
  cases h1 : create "go_memstats_sys_bytes" "Number of bytes obtained from system." with
  | error err =>
    simp only [h1] at h
    exact Option.noConfusion h
  | ok g1 =>
    simp only [h1] at h
    cases h2 : create "go_memstats_alloc_bytes_total" "Total number of bytes allocated, even if freed." with
    | error err =>
      simp only [h2] at h
      exact Option.noConfusion h
    | ok g2 =>
      simp only [h2] at h
      cases h3 : create "go_memstats_heap_alloc_bytes" "Number of heap bytes allocated and still in use." with
      | error err =>
        simp only [h3] at h
        exact Option.noConfusion h
      | ok g3 =>
        simp only [h3] at h
        cases h4 : create "go_memstats_frees_total" "Total number of frees." with
        | error err =>
          simp only [h4] at h
          exact Option.noConfusion h
        | ok g4 =>
          simp only [h4] at h
          cases h5 : create "go_memstats_gc_sys_bytes" "Number of bytes used for garbage collection system metadata." with
          | error err =>
            simp only [h5] at h
            exact Option.noConfusion h
          | ok g5 =>
            simp only [h5] at h
            cases h6 : create "go_memstats_heap_idle_bytes" "Number of heap bytes waiting to be used." with
            | error err =>
              simp only [h6] at h
              exact Option.noConfusion h
            | ok g6 =>
              simp only [h6] at h
              cases h7 : create "go_memstats_heap_inuse_bytes" "Number of heap bytes that are in use." with
              | error err =>
                simp only [h7] at h
                exact Option.noConfusion h
              | ok g7 =>
                simp only [h7] at h
                cases h8 : create "go_memstats_heap_objects" "Number of allocated objects." with
                | error err =>
                  simp only [h8] at h
                  exact Option.noConfusion h
                | ok g8 =>
                  simp only [h8] at h
                  cases h9 : create "go_memstats_heap_released_bytes" "Number of heap bytes released to OS." with
                  | error err =>
                    simp only [h9] at h
                    exact Option.noConfusion h
                  | ok g9 =>
                    simp only [h9] at h
                    cases h10 : create "go_memstats_heap_sys_bytes" "Number of heap bytes obtained from system." with
                    | error err =>
                      simp only [h10] at h
                      exact Option.noConfusion h
                    | ok g10 =>
                      simp only [h10] at h
                      cases h11 : create "go_memstats_last_gc_time_seconds" "Number of seconds since 1970 of last garbage collection." with
                      | error err =>
                        simp only [h11] at h
                        exact Option.noConfusion h
                      | ok g11 =>
                        simp only [h11] at h
                        cases h12 : create "go_memstats_lookups_total" "Total number of pointer lookups." with
                        | error err =>
                          simp only [h12] at h
                          exact Option.noConfusion h
                        | ok g12 =>
                          simp only [h12] at h
                          cases h13 : create "go_memstats_mallocs_total" "Total number of mallocs." with
                          | error err =>
                            simp only [h13] at h
                            exact Option.noConfusion h
                          | ok g13 =>
                            simp only [h13] at h
                            cases h14 : create "go_memstats_mcache_inuse_bytes" "Number of bytes in use by mcache structures." with
                            | error err =>
                              simp only [h14] at h
                              exact Option.noConfusion h
                            | ok g14 =>
                              simp only [h14] at h
                              cases h15 : create "go_memstats_mcache_sys_bytes" "Number of bytes used for mcache structures obtained from system." with
                              | error err =>
                                simp only [h15] at h
                                exact Option.noConfusion h
                              | ok g15 =>
                                simp only [h15] at h
                                cases h16 : create "go_memstats_mspan_inuse_bytes" "Number of bytes in use by mspan structures." with
                                | error err =>
                                  simp only [h16] at h
                                  exact Option.noConfusion h
                                | ok g16 =>
                                  simp only [h16] at h
                                  cases h17 : create "go_memstats_mspan_sys_bytes" "Number of bytes used for mspan structures obtained from system." with
                                  | error err =>
                                    simp only [h17] at h
                                    exact Option.noConfusion h
                                  | ok g17 =>
                                    simp only [h17] at h
                                    cases h18 : create "go_memstats_next_gc_bytes" "Number of heap bytes when next garbage collection will take place." with
                                    | error err =>
                                      simp only [h18] at h
                                      exact Option.noConfusion h
                                    | ok g18 =>
                                      simp only [h18] at h
                                      cases h19 : create "go_memstats_other_sys_bytes" "Number of bytes used for other system allocations." with
                                      | error err =>
                                        simp only [h19] at h
                                        exact Option.noConfusion h
                                      | ok g19 =>
                                        simp only [h19] at h
                                        cases h20 : create "go_memstats_stack_inuse_bytes" "Number of bytes in use by the stack allocator." with
                                        | error err =>
                                          simp only [h20] at h
                                          exact Option.noConfusion h
                                        | ok g20 =>
                                          simp only [h20] at h
                                          cases h21 : create "go_memstats_gc_completed_cycle" "Number of GC cycle completed." with
                                          | error err =>
                                            simp only [h21] at h
                                            exact Option.noConfusion h
                                          | ok g21 =>
                                            simp only [h21] at h
                                            cases h22 : create "go_memstats_gc_pause_total" "Number of GC-stop-the-world caused in Nanosecond." with
                                            | error err =>
                                              simp only [h22] at h
                                              exact Option.noConfusion h
                                            | ok g22 =>
                                              simp only [h22] at h
                                              refine ⟨⟨g1, g2, g3, g4, g5, g6, g7, g8, g9, g10, g11, g12, g13, g14, g15, g16, g17, g18, g19, g20, g21, g22⟩, ?_⟩
                                              simp only [NewMemGauges]
                                              rw [h1, h2, h3, h4, h5, h6, h7, h8, h9, h10, h11, h12, h13, h14, h15, h16, h17, h18, h19, h20, h21, h22]
                                              rfl

lemma newSysGauge_error_of_firstFailure (create : GaugeCreate) (e : MetricsError)
    (h : firstFailure create sysGaugeSpecs = some e) :
    NewSysGauge create = .error e := by
  simp only [sysGaugeSpecs, firstFailure] at h
  cases h1 : create "go_threads" "Number of OS threads created." with
  | error err =>
    simp only [h1] at h
    injection h with h
    subst h
    simp only [NewSysGauge]
    rw [h1]
    rfl
  | ok g1 =>
    simp only [h1] at h
    cases h2 : create "go_cgo" "Number of CGO calls." with
    | error err =>
      simp only [h2] at h
      injection h with h
      subst h
      simp only [NewSysGauge]
      rw [h1, h2]
      rfl
    | ok g2 =>
      simp only [h2] at h
      cases h3 : create "go_goroutines" "Number of goroutines." with
      | error err =>
        simp only [h3] at h
        injection h with h
        subst h
        simp only [NewSysGauge]
        rw [h1, h2, h3]
        rfl
      | ok g3 =>
        simp only [h3] at h
        exact Option.noConfusion h

lemma newSysGauge_ok_of_noFailure (create : GaugeCreate)
    (h : firstFailure create sysGaugeSpecs = none) :
    ∃ gs, NewSysGauge create = .ok gs := by
  simp only [sysGaugeSpecs, firstFailure] at h
  cases h1 : create "go_threads" "Number of OS threads created." with
  | error err =>
    simp only [h1] at h
    exact Option.noConfusion h
  | ok g1 =>
    simp only [h1] at h
    cases h2 : create "go_cgo" "Number of CGO calls." with
    | error err =>
      simp only [h2] at h
      exact Option.noConfusion h
    | ok g2 =>
      simp only [h2] at h
      cases h3 : create "go_goroutines" "Number of goroutines." with
      | error err =>
        simp only [h3] at h
        exact Option.noConfusion h
      | ok g3 =>
        refine ⟨⟨g1, g2, g3⟩, ?_⟩
        simp only [NewSysGauge]
        rw [h1, h2, h3]
        rfl

lemma basic_error_of_sys_failure (create : GaugeCreate) (st : MeterState)
    (m : memGauges) (e : MetricsError) (hm : NewMemGauges create = .ok m)
    (hs : NewSysGauge create = .error e) :
    BasicMetricsCollector create st = .error e := by
  simp only [BasicMetricsCollector]
  rw [hm, hs]
  rfl

lemma toInt64_mono_small (a b : Nat) (hab : a ≤ b) (hb : b < 2 ^ 63) :
    toInt64 a ≤ toInt64 b := by
  have ha : a < 2 ^ 63 := lt_of_le_of_lt hab hb
  have ha64 : a < 2 ^ 64 := lt_trans ha (by norm_num)
  have hb64 : b < 2 ^ 64 := lt_trans hb (by norm_num)
  unfold toInt64
  rw [Nat.mod_eq_of_lt ha64, Nat.mod_eq_of_lt hb64, if_pos ha, if_pos hb]
  exact_mod_cast hab

/-- C6: within one sampling callback invocation the 22 gauge values all derive
from the single MemStats snapshot taken at its start — in particular the
emitted value for in-use heap bytes (entry 6) and the emitted value for
system bytes (entry 0) come from the same snapshot, so whenever the snapshot
satisfies the runtime bound HeapInuse ≤ Sys (and Sys fits in int64), the
emitted in-use-heap value does not exceed the emitted system value. -/
theorem c6_single_snapshot_consistency (m : memGauges) (s : MemStats)
    (h1 : s.HeapInuse ≤ s.Sys) (h2 : s.Sys < 2 ^ 63) :
    (memObserve m s).length = 22 ∧
    (memObserve m s).getD 0 (⟨"", ""⟩, 0) = (m.ggSysBytes, toInt64 s.Sys) ∧
    (memObserve m s).getD 6 (⟨"", ""⟩, 0) = (m.ggInuseBytes, toInt64 s.HeapInuse) ∧
    ((memObserve m s).getD 6 (⟨"", ""⟩, 0)).2 ≤ ((memObserve m s).getD 0 (⟨"", ""⟩, 0)).2 := by
  refine ⟨rfl, rfl, rfl, ?_⟩
  show toInt64 s.HeapInuse ≤ toInt64 s.Sys
  exact toInt64_mono_small s.HeapInuse s.Sys h1 h2

/-- C6 witness: the canonical collector on a concrete snapshot with
HeapInuse = 10 and Sys = 20. -/
theorem c6_witness :
    (memObserve memCanonical sampleStats).length = 22 ∧
    (memObserve memCanonical sampleStats).getD 0 (⟨"", ""⟩, 0) =
      (memCanonical.ggSysBytes, toInt64 sampleStats.Sys) ∧
    (memObserve memCanonical sampleStats).getD 6 (⟨"", ""⟩, 0) =
      (memCanonical.ggInuseBytes, toInt64 sampleStats.HeapInuse) ∧
    ((memObserve memCanonical sampleStats).getD 6 (⟨"", ""⟩, 0)).2 ≤
      ((memObserve memCanonical sampleStats).getD 0 (⟨"", ""⟩, 0)).2 :=
  c6_single_snapshot_consistency memCanonical sampleStats (by decide) (by decide)

/-- C8 counterexample: calling Collect a second time for the same collector
on the same meter surfaces no error at all — the registration result of the
second call is nil, not an InstrumentCreationError, and the method itself
returns nothing. -/
theorem c8_counterexample :
    (RegisterCallback (memGauges.Collect memCanonical ⟨[]⟩) (.memCb memCanonical)).2.2 =
      none ∧
    (memGauges.Collect memCanonical (memGauges.Collect memCanonical ⟨[]⟩)).callbacks =
      [.memCb memCanonical, .memCb memCanonical] :=
  ⟨rfl, rfl⟩

/-- C8 (amended: no error reaches the caller): a second Collect call simply
registers the sampling callback again, discarding the registration result;
the first registration — and the gauge handles it carries — remains in place
unchanged. -/
theorem c8_second_collect_no_error (m : memGauges) (st : MeterState) :
    (memGauges.Collect m (memGauges.Collect m st)).callbacks =
      st.callbacks ++ [.memCb m, .memCb m] ∧
    (RegisterCallback (memGauges.Collect m st) (.memCb m)).2.2 = none := by
  constructor
  · simp [memGauges.Collect, RegisterCallback]
  · rfl

/-- C9: collector construction is all-or-nothing — the first gauge-creation
failure makes the constructor return exactly that error (and no collector),
all creations succeeding yields a collector, for both Memory and System
collectors; a System failure after a successful Memory construction aborts
the combined setup without affecting the already-constructed Memory
collector value. -/
theorem c9_all_or_nothing (create : GaugeCreate) (e : MetricsError) :
    (firstFailure create memGaugeSpecs = some e → NewMemGauges create = .error e) ∧
    (firstFailure create memGaugeSpecs = none → ∃ m, NewMemGauges create = .ok m) ∧
    (firstFailure create sysGaugeSpecs = some e → NewSysGauge create = .error e) ∧
    (firstFailure create sysGaugeSpecs = none → ∃ gs, NewSysGauge create = .ok gs) ∧
    (∀ st m, NewMemGauges create = .ok m → NewSysGauge create = .error e →
      BasicMetricsCollector create st = .error e) :=
  ⟨newMemGauges_error_of_firstFailure create e,
   newMemGauges_ok_of_noFailure create,
   newSysGauge_error_of_firstFailure create e,
   newSysGauge_ok_of_noFailure create,
   fun st m hm hs => basic_error_of_sys_failure create st m e hm hs⟩

/-- C9 witness: a meter failing exactly at the third memory gauge name. -/
theorem c9_witness :
    NewMemGauges failCreate = .error (.instrumentCreationError "duplicate instrument") :=
  (c9_all_or_nothing failCreate (.instrumentCreationError "duplicate instrument")).1 rfl

/-- C10: the gauge created under the name go_memstats_stack_inuse_bytes (and
described as bytes in use by the stack allocator) is populated from the
StackSys snapshot field, not from the StackInuse counter — entry 19 of the
observation list pairs that gauge with toInt64 of StackSys, and a snapshot
exists on which that differs from toInt64 of StackInuse. -/
theorem c10_stack_gauge_reads_stack_sys :
    (∀ (m : memGauges) (s : MemStats),
      (memObserve m s).getD 19 (⟨"", ""⟩, 0) = (m.ggStackInuseBytes, toInt64 s.StackSys)) ∧
    (∀ m, NewMemGauges okCreate = .ok m →
      m.ggStackInuseBytes =
        ⟨"go_memstats_stack_inuse_bytes", "Number of bytes in use by the stack allocator."⟩) ∧
    (∃ s : MemStats, toInt64 s.StackSys ≠ toInt64 s.StackInuse) := by
  refine ⟨fun m s => rfl, ?_, ⟨sampleStats, by decide⟩⟩
  intro m hm
  have hcan : NewMemGauges okCreate = Except.ok memCanonical := rfl
  rw [hcan] at hm
  injection hm with hm
  rw [← hm]
  rfl

/-- C10 witness: the canonical collector satisfies the creation equation. -/
theorem c10_witness :
    memCanonical.ggStackInuseBytes =
      ⟨"go_memstats_stack_inuse_bytes", "Number of bytes in use by the stack allocator."⟩ :=
  c10_stack_gauge_reads_stack_sys.2.1 memCanonical rfl
